import Mathlib

/-!
Shallow embedding of the btc-signal-monitor signal-detection engine.

Prices, volumes and times are modelled as rationals (`ℚ`), Python `None`
as `Option`, Python float truthiness (`if x:`) explicitly via `truthyQ`,
and the one code path that can raise `ZeroDivisionError` as
`Except Unit`.  The repository carries two copies of the engine:
`src/monitor.py` (namespace `Monitor`) and `src/main.py` (namespace
`Main`); shared helpers sit at top level.  Condition strings built with
f-strings are represented by closed condition tags carrying the
interpolated numeric values.
-/

/-- OHLCV bar, `Candle` dataclass of src/monitor.py (the dataclass in
src/exchanges.py used by src/main.py is field-for-field identical). -/
structure Candle where
  timestamp : ℚ
  «open» : ℚ
  high : ℚ
  low : ℚ
  close : ℚ
  volume : ℚ
deriving DecidableEq

namespace Candle

/-- `body = abs(close - open)`. -/
def body (c : Candle) : ℚ := |c.close - c.«open»|

/-- `upper_wick = high - max(open, close)`. -/
def upper_wick (c : Candle) : ℚ := c.high - max c.«open» c.close

/-- `lower_wick = min(open, close) - low`. -/
def lower_wick (c : Candle) : ℚ := min c.«open» c.close - c.low

/-- `range = high - low`. -/
def range (c : Candle) : ℚ := c.high - c.low

/-- `is_bullish = close > open`. -/
def is_bullish (c : Candle) : Bool := decide (c.close > c.«open»)

/-- `is_bearish = close < open`. -/
def is_bearish (c : Candle) : Bool := decide (c.close < c.«open»)

end Candle

/-- Python negative-index slice `l[-n:]` (for `n = 0` Python returns the
whole list, since `l[-0:] = l[0:]`). -/
def pyTail {α : Type} (n : ℕ) (l : List α) : List α :=
  if n = 0 then l else l.drop (l.length - n)

/-- Python `candles[-1]` (junk default for the empty list, which every
use site guards against as the code does). -/
def lastD (l : List Candle) : Candle := l.getLastD ⟨0, 0, 0, 0, 0, 0⟩

/-- Python `candles[-2]`. -/
def penultD (l : List Candle) : Candle := l.dropLast.getLastD ⟨0, 0, 0, 0, 0, 0⟩

/-- Python `max(seq)` on a non-empty sequence. -/
def listMax (l : List ℚ) : ℚ := l.foldl max (l.headD 0)

/-- Python `min(seq)` on a non-empty sequence. -/
def listMin (l : List ℚ) : ℚ := l.foldl min (l.headD 0)

/-- Successive differences `prices[i] - prices[i-1]`, the values the
`for i in range(1, len(prices))` loops of both `rsi` copies iterate over. -/
def deltas : List ℚ → List ℚ
  | [] => []
  | [_] => []
  | a :: b :: rest => (b - a) :: deltas (b :: rest)

/-- Python truthiness of an optional float: `if x:` is taken exactly when
`x` is neither `None` nor `0.0`. -/
def truthyQ : Option ℚ → Bool
  | none => false
  | some v => decide (v ≠ 0)

/-- `sma(prices, period)` — identical in `TechnicalIndicators.sma`
(src/monitor.py) and `Indicators.sma` (src/main.py). -/
def sma (prices : List ℚ) (period : ℕ) : Option ℚ :=
  if prices.length < period then none
  else some ((pyTail period prices).sum / (period : ℚ))

namespace Monitor

/-- `CandlePattern` enum of src/monitor.py. -/
inductive CandlePattern where
  | HAMMER
  | BULLISH_ENGULFING
  | BEARISH_ENGULFING
  | DOJI
  | PINBAR_BULLISH
  | PINBAR_BEARISH
  | NONE
deriving DecidableEq

/-- `CandlePatternDetector.detect_hammer` (default `min_wick_ratio = 2.0`). -/
def detect_hammer (candle : Candle) : Bool :=
  if candle.body = 0 then false
  else
    let lower_wick_r : ℚ := if candle.body > 0 then candle.lower_wick / candle.body else 0
    let upper_wick_r : ℚ := if candle.body > 0 then candle.upper_wick / candle.body else 0
    decide (lower_wick_r ≥ 2 ∧ upper_wick_r < 1 ∧ candle.lower_wick > candle.upper_wick)

/-- `CandlePatternDetector.detect_bullish_engulfing`. -/
def detect_bullish_engulfing (current previous : Candle) : Bool :=
  previous.is_bearish && current.is_bullish &&
    decide (current.«open» < previous.close) && decide (current.close > previous.«open»)

/-- `CandlePatternDetector.detect_bearish_engulfing`. -/
def detect_bearish_engulfing (current previous : Candle) : Bool :=
  previous.is_bullish && current.is_bearish &&
    decide (current.«open» > previous.close) && decide (current.close < previous.«open»)

/-- `CandlePatternDetector.detect_doji` (default `threshold = 0.1`). -/
def detect_doji (candle : Candle) : Bool :=
  if candle.range = 0 then false
  else decide (candle.body / candle.range < 1/10)

/-- `CandlePatternDetector.detect_pinbar_bullish`. -/
def detect_pinbar_bullish (candle : Candle) : Bool :=
  if candle.range = 0 then false
  else
    decide (candle.lower_wick / candle.range ≥ 6/10 ∧
      (min candle.«open» candle.close - candle.low) / candle.range ≥ 6/10)

/-- `CandlePatternDetector.detect_pattern`: priority-ordered, first match
wins; fewer than 2 candles gives `NONE`. -/
def detect_pattern (candles : List Candle) : CandlePattern :=
  if candles.length < 2 then .NONE
  else
    let current := lastD candles
    let previous := penultD candles
    if detect_bullish_engulfing current previous then .BULLISH_ENGULFING
    else if detect_bearish_engulfing current previous then .BEARISH_ENGULFING
    else if detect_hammer current then .HAMMER
    else if detect_pinbar_bullish current then .PINBAR_BULLISH
    else if detect_doji current then .DOJI
    else .NONE

/-- The gains list built by `TechnicalIndicators.rsi`'s loop. -/
def rsiGains (prices : List ℚ) : List ℚ :=
  (deltas prices).map (fun change => if change ≥ 0 then change else 0)

/-- The losses list built by `TechnicalIndicators.rsi`'s loop. -/
def rsiLosses (prices : List ℚ) : List ℚ :=
  (deltas prices).map (fun change => if change ≥ 0 then 0 else |change|)

/-- `avg_loss = sum(losses[-period:]) / period` inside `rsi`. -/
def rsi_avg_loss (prices : List ℚ) (period : ℕ) : ℚ :=
  (pyTail period (rsiLosses prices)).sum / (period : ℚ)

/-- `TechnicalIndicators.rsi` (src/monitor.py): `None` on fewer than
`period + 1` prices, `100` when the average loss is exactly zero. -/
def rsi (prices : List ℚ) (period : ℕ) : Option ℚ :=
  if prices.length < period + 1 then none
  else
    let avg_gain := (pyTail period (rsiGains prices)).sum / (period : ℚ)
    let avg_loss := rsi_avg_loss prices period
    if avg_loss = 0 then some 100
    else some (100 - 100 / (1 + avg_gain / avg_loss))

/-- The Fibonacci level map returned by
`TechnicalIndicators.fibonacci_levels`, one field per dict key. -/
structure FibLevels where
  r000 : ℚ
  r236 : ℚ
  r382 : ℚ
  r500 : ℚ
  r618 : ℚ
  r786 : ℚ
  r1000 : ℚ
  e1272 : ℚ
  e1618 : ℚ
deriving DecidableEq

/-- `TechnicalIndicators.fibonacci_levels`. -/
def fibonacci_levels (high low : ℚ) : FibLevels :=
  let diff := high - low
  { r000 := high
    r236 := high - diff * (236/1000)
    r382 := high - diff * (382/1000)
    r500 := high - diff * (1/2)
    r618 := high - diff * (618/1000)
    r786 := high - diff * (786/1000)
    r1000 := low
    e1272 := low - diff * (272/1000)
    e1618 := low - diff * (618/1000) }

end Monitor

/-- The `"trading"` configuration dict: `None` fields fall back to the
`.get(key, default)` defaults at each use site. -/
structure TradingConfig where
  entry_zone_min : Option ℚ
  entry_zone_max : Option ℚ
  stop_loss : Option ℚ
  tp1 : Option ℚ
  tp2 : Option ℚ
  tp3 : Option ℚ
  min_conditions : Option ℕ
  min_confidence : Option ℚ
deriving DecidableEq

/-- The all-defaults trading dict (every key absent). -/
def emptyTradingConfig : TradingConfig :=
  ⟨none, none, none, none, none, none, none, none⟩

namespace Monitor

/-- The condition strings `TradingConditions.check_long_conditions` can
append, one tag per f-string, carrying the interpolated values. -/
inductive Cond where
  | price_in_entry_zone (emin emax : ℚ)
  | pattern_reversal (p : CandlePattern)
  | doji_wait
  | price_above_sma21 (v : ℚ)
  | smas_aligned
  | rsi_neutral (v : ℚ)
  | rsi_support (v : ℚ)
  | volume_above_avg (mult : ℚ)
  | rsi_not_overbought
deriving DecidableEq

/-- The `bullish_patterns` list of `check_long_conditions`. -/
def bullish_patterns : List CandlePattern :=
  [.HAMMER, .BULLISH_ENGULFING, .PINBAR_BULLISH]

/-- Pointwise sum of two (conditions, confidence) contributions. -/
def cadd (a b : List Cond × ℚ) : List Cond × ℚ := (a.1 ++ b.1, a.2 + b.2)

/-- Step 1 of `check_long_conditions`: entry-zone check, weight 20. -/
def entry_step (emin emax price : ℚ) : List Cond × ℚ :=
  if emin ≤ price ∧ price ≤ emax then ([.price_in_entry_zone emin emax], 20) else ([], 0)

/-- Step 2: candle pattern, weight 25 for a bullish-reversal pattern,
10 for a Doji. -/
def pattern_step (pattern : CandlePattern) : List Cond × ℚ :=
  if pattern ∈ bullish_patterns then ([.pattern_reversal pattern], 25)
  else if pattern = .DOJI then ([.doji_wait], 10)
  else ([], 0)

/-- Step 3: SMA trend block, guarded by Python truthiness of all three
SMAs; weight 15 for price above SMA21 plus 15 for aligned SMAs. -/
def sma_step (price : ℚ) (sma_7 sma_21 sma_50 : Option ℚ) : List Cond × ℚ :=
  if truthyQ sma_7 ∧ truthyQ sma_21 ∧ truthyQ sma_50 then
    cadd
      (if price > sma_21.getD 0 then ([.price_above_sma21 (sma_21.getD 0)], 15) else ([], 0))
      (if sma_7.getD 0 > sma_21.getD 0 ∧ sma_21.getD 0 > sma_50.getD 0 then
        ([.smas_aligned], 15) else ([], 0))
  else ([], 0)

/-- Step 4: RSI zones, guarded by truthiness of the RSI value; weight 10
in the neutral zone `40 ≤ rsi ≤ 60`, else 15 in the support zone
`30 ≤ rsi < 40`. -/
def rsi_zone_step (rsi_v : Option ℚ) : List Cond × ℚ :=
  if truthyQ rsi_v then
    if 40 ≤ rsi_v.getD 0 ∧ rsi_v.getD 0 ≤ 60 then ([.rsi_neutral (rsi_v.getD 0)], 10)
    else if 30 ≤ rsi_v.getD 0 ∧ rsi_v.getD 0 < 40 then ([.rsi_support (rsi_v.getD 0)], 15)
    else ([], 0)
  else ([], 0)

/-- Step 5: volume spike, weight 10.  When the branch is taken with a
zero average volume the f-string computes `current_volume/avg_volume`
and Python raises `ZeroDivisionError`, modelled as `Except.error`. -/
def volume_step (avg_volume current_volume : ℚ) : Except Unit (List Cond × ℚ) :=
  if current_volume > avg_volume * (12/10) then
    if avg_volume = 0 then .error ()
    else .ok ([.volume_above_avg (current_volume / avg_volume)], 10)
  else .ok ([], 0)

/-- Step 6: not overbought, weight 5, guarded by `if rsi and rsi < 70`
(so skipped when the RSI is `None` or exactly `0.0`). -/
def overbought_step (rsi_v : Option ℚ) : List Cond × ℚ :=
  if truthyQ rsi_v ∧ rsi_v.getD 0 < 70 then ([.rsi_not_overbought], 5) else ([], 0)

/-- `TradingConditions.check_long_conditions` (src/monitor.py): returns
`(should_signal, conditions_met, confidence, pattern)`, or an error on
the `ZeroDivisionError` path of step 5 (the average over
`recent_volumes[:-1]` itself also divides by the window length). -/
def check_long_conditions (config : TradingConfig) (candles : List Candle)
    (current_price : ℚ) : Except Unit (Bool × List Cond × ℚ × CandlePattern) :=
  let closes := candles.map Candle.close
  let recent_high := listMax ((pyTail 50 candles).map Candle.high)
  let recent_low := listMin ((pyTail 50 candles).map Candle.low)
  let fib_levels := fibonacci_levels recent_high recent_low
  let entry_zone_min := config.entry_zone_min.getD fib_levels.r382
  let entry_zone_max := config.entry_zone_max.getD fib_levels.r236
  let s1 := entry_step entry_zone_min entry_zone_max current_price
  let pattern := detect_pattern candles
  let s2 := pattern_step pattern
  let s3 := sma_step current_price (sma closes 7) (sma closes 21) (sma closes 50)
  let rsi_v := rsi closes 14
  let s4 := rsi_zone_step rsi_v
  let prev_volumes := ((pyTail 10 candles).map Candle.volume).dropLast
  if prev_volumes.length = 0 then .error ()
  else
    let avg_volume := prev_volumes.sum / (prev_volumes.length : ℚ)
    let current_volume := (lastD candles).volume
    match volume_step avg_volume current_volume with
    | .error e => .error e
    | .ok s5 =>
      let s6 := overbought_step rsi_v
      let conditions_met := s1.1 ++ s2.1 ++ s3.1 ++ s4.1 ++ s5.1 ++ s6.1
      let confidence := s1.2 + s2.2 + s3.2 + s4.2 + s5.2 + s6.2
      let min_conditions := config.min_conditions.getD 4
      let min_confidence := config.min_confidence.getD 60
      let should_signal :=
        decide (conditions_met.length ≥ min_conditions) &&
        decide (confidence ≥ min_confidence) &&
        decide (pattern ∈ bullish_patterns)
      .ok (should_signal, conditions_met, confidence, pattern)

end Monitor

namespace Main

/-- `CandlePattern` enum of src/main.py (no bearish variants). -/
inductive MPattern where
  | HAMMER
  | BULLISH_ENGULFING
  | PINBAR_BULLISH
  | DOJI
  | NONE
deriving DecidableEq

/-- `PatternDetector.detect_hammer` (src/main.py): upper-wick bound is
`0.5` and there is no lower-wick-dominance clause. -/
def detect_hammer (candle : Candle) : Bool :=
  if candle.body = 0 then false
  else
    let lower_r : ℚ := candle.lower_wick / candle.body
    let upper_r : ℚ := if candle.body > 0 then candle.upper_wick / candle.body else 0
    decide (lower_r ≥ 2 ∧ upper_r < 1/2)

/-- `PatternDetector.detect_engulfing` (src/main.py). -/
def detect_engulfing (current previous : Candle) : Bool :=
  previous.is_bearish && current.is_bullish &&
    decide (current.«open» < previous.close) && decide (current.close > previous.«open»)

/-- `PatternDetector.detect_pinbar` (src/main.py). -/
def detect_pinbar (candle : Candle) : Bool :=
  if candle.range = 0 then false
  else decide (candle.lower_wick / candle.range ≥ 6/10)

/-- `PatternDetector.detect_doji` (src/main.py). -/
def detect_doji (candle : Candle) : Bool :=
  if candle.range = 0 then false
  else decide (candle.body / candle.range < 1/10)

/-- `PatternDetector.detect` (src/main.py): priority order with no
bearish-engulfing test. -/
def detect (candles : List Candle) : MPattern :=
  if candles.length < 2 then .NONE
  else
    let current := lastD candles
    let previous := penultD candles
    if detect_engulfing current previous then .BULLISH_ENGULFING
    else if detect_hammer current then .HAMMER
    else if detect_pinbar current then .PINBAR_BULLISH
    else if detect_doji current then .DOJI
    else .NONE

/-- `Indicators.rsi` (src/main.py): gains/losses via `max(0, ±change)`. -/
def rsi (prices : List ℚ) (period : ℕ) : Option ℚ :=
  if prices.length < period + 1 then none
  else
    let gains := (deltas prices).map (fun change => max 0 change)
    let losses := (deltas prices).map (fun change => max 0 (-change))
    let avg_gain := (pyTail period gains).sum / (period : ℚ)
    let avg_loss := (pyTail period losses).sum / (period : ℚ)
    if avg_loss = 0 then some 100
    else some (100 - 100 / (1 + avg_gain / avg_loss))

/-- The condition strings `BTCMonitor.check_conditions` can append. -/
inductive MCond where
  | price_in_entry_zone (emin emax : ℚ)
  | pattern_reversal (p : MPattern)
  | doji_indecision
  | price_above_sma21 (v : ℚ)
  | sma7_above_sma21
  | rsi_support (v : ℚ)
  | rsi_neutral (v : ℚ)
  | volume_above_avg (mult : ℚ)
deriving DecidableEq

/-- The `bullish_patterns` list of `check_conditions`. -/
def bullish_patterns : List MPattern :=
  [.HAMMER, .BULLISH_ENGULFING, .PINBAR_BULLISH]

/-- Pointwise sum of two (conditions, confidence) contributions. -/
def cadd (a b : List MCond × ℚ) : List MCond × ℚ := (a.1 ++ b.1, a.2 + b.2)

/-- Step 1 of `check_conditions`: entry zone, weight 25. -/
def entry_step (emin emax price : ℚ) : List MCond × ℚ :=
  if emin ≤ price ∧ price ≤ emax then ([.price_in_entry_zone emin emax], 25) else ([], 0)

/-- Step 2: pattern, weight 25 bullish / 10 Doji. -/
def pattern_step (pattern : MPattern) : List MCond × ℚ :=
  if pattern ∈ bullish_patterns then ([.pattern_reversal pattern], 25)
  else if pattern = .DOJI then ([.doji_indecision], 10)
  else ([], 0)

/-- Step 3: SMA block, weight 15 for price above SMA21 plus 10 for
SMA7 above SMA21. -/
def sma_step (price : ℚ) (sma7 sma21 : Option ℚ) : List MCond × ℚ :=
  if truthyQ sma7 ∧ truthyQ sma21 then
    cadd
      (if price > sma21.getD 0 then ([.price_above_sma21 (sma21.getD 0)], 15) else ([], 0))
      (if sma7.getD 0 > sma21.getD 0 then ([.sma7_above_sma21], 10) else ([], 0))
  else ([], 0)

/-- Step 4: RSI zones, weight 15 in `30 ≤ rsi ≤ 50`, else 5 in
`50 < rsi < 70`. -/
def rsi_zone_step (rsi_v : Option ℚ) : List MCond × ℚ :=
  if truthyQ rsi_v then
    if 30 ≤ rsi_v.getD 0 ∧ rsi_v.getD 0 ≤ 50 then ([.rsi_support (rsi_v.getD 0)], 15)
    else if 50 < rsi_v.getD 0 ∧ rsi_v.getD 0 < 70 then ([.rsi_neutral (rsi_v.getD 0)], 5)
    else ([], 0)
  else ([], 0)

/-- Step 5: volume spike, weight 10; the ratio is only computed under the
`avg_vol > 0` guard, so no division error is possible here. -/
def volume_step (avg_vol current_volume : ℚ) : List MCond × ℚ :=
  if avg_vol > 0 ∧ current_volume > avg_vol * (12/10) then
    ([.volume_above_avg (current_volume / avg_vol)], 10)
  else ([], 0)

/-- `BTCMonitor.check_conditions` (src/main.py): total — every division
is guarded. -/
def check_conditions (trading : TradingConfig) (candles : List Candle)
    (price : ℚ) : Bool × List MCond × ℚ × MPattern :=
  let closes := candles.map Candle.close
  let entry_min := trading.entry_zone_min.getD 94200
  let entry_max := trading.entry_zone_max.getD 94500
  let s1 := entry_step entry_min entry_max price
  let pattern := detect candles
  let s2 := pattern_step pattern
  let s3 := sma_step price (sma closes 7) (sma closes 21)
  let rsi_v := rsi closes 14
  let s4 := rsi_zone_step rsi_v
  let volumes := (pyTail 10 candles).map Candle.volume
  let avg_vol : ℚ :=
    if volumes.length > 1 then volumes.dropLast.sum / (volumes.dropLast.length : ℚ) else 0
  let s5 := volume_step avg_vol (lastD candles).volume
  let conditions := s1.1 ++ s2.1 ++ s3.1 ++ s4.1 ++ s5.1
  let confidence := s1.2 + s2.2 + s3.2 + s4.2 + s5.2
  let min_cond := trading.min_conditions.getD 4
  let min_conf := trading.min_confidence.getD 60
  let should_signal :=
    decide (conditions.length ≥ min_cond) &&
    decide (confidence ≥ min_conf) &&
    decide (pattern ∈ bullish_patterns)
  (should_signal, conditions, confidence, pattern)

end Main

/-- Which notification sinks the `"notifications"` dict configures
(`SignalNotifier.__init__` in both files reads the same five keys). -/
structure NotifierConfig where
  webhook_url : Bool
  telegram_token : Bool
  telegram_chat_id : Bool
  discord_webhook : Bool
  n8n_webhook : Bool
deriving DecidableEq

/-- The boolean each per-channel `_send_*` coroutine would return. -/
structure SinkResults where
  webhook : Bool
  telegram : Bool
  discord : Bool
  n8n : Bool
deriving DecidableEq

/-- The `results` list accumulated by `send_signal` / `notify`: one entry
per configured sink, in the order the code attempts them. -/
def attempted (cfg : NotifierConfig) (r : SinkResults) : List Bool :=
  (if cfg.webhook_url then [r.webhook] else []) ++
  (if cfg.telegram_token ∧ cfg.telegram_chat_id then [r.telegram] else []) ++
  (if cfg.discord_webhook then [r.discord] else []) ++
  (if cfg.n8n_webhook then [r.n8n] else [])

/-- `SignalNotifier.send_signal` (src/monitor.py):
`all(results) if results else False`. -/
def send_signal (cfg : NotifierConfig) (r : SinkResults) : Bool :=
  let results := attempted cfg r
  if results.isEmpty then false else results.all id

/-- `SignalNotifier.notify` (src/main.py):
`any(results) if results else False`. -/
def notify (cfg : NotifierConfig) (r : SinkResults) : Bool :=
  let results := attempted cfg r
  if results.isEmpty then false else results.any id

/-- The notifications dict with every channel left unset. -/
def no_sinks : NotifierConfig := ⟨false, false, false, false, false⟩

/-- The cooldown-clock update both drivers perform after a delivery
attempt: `if success: last_signal = now` (state unchanged otherwise). -/
def deliveryUpdate (st : Option ℚ) (now : ℚ) (success : Bool) : Option ℚ :=
  if success then some now else st

/-- The cooldown gate at the top of both poll loops: blocked exactly when
a last-signal timestamp is set and `now - last < cooldown`. -/
def cooldownActive (cooldown : ℚ) (st : Option ℚ) (now : ℚ) : Bool :=
  match st with
  | none => false
  | some t => decide (now - t < cooldown)

namespace Main

/-- `SignalType` enum of src/main.py. -/
inductive SignalType where
  | LONG
  | SHORT
deriving DecidableEq

/-- `TradingSignal` dataclass of src/main.py (condition strings as tags,
timestamps as rational seconds). -/
structure TradingSignal where
  signal_type : SignalType
  symbol : String
  entry_zone_min : ℚ
  entry_zone_max : ℚ
  stop_loss : ℚ
  take_profit_1 : ℚ
  take_profit_2 : Option ℚ
  take_profit_3 : Option ℚ
  pattern_detected : MPattern
  confidence_score : ℚ
  conditions_met : List MCond
  timestamp : ℚ
  timeframe : String
  current_price : ℚ
  risk_reward : ℚ
  notes : String
deriving DecidableEq

/-- The body of `BTCMonitor.run_once` past the cooldown gate: data-length
check, condition evaluation, signal assembly, delivery, clock update.
Returns `(returned signal, new last-signal state)`. -/
def poll_eval (trading : TradingConfig) (ncfg : NotifierConfig)
    (symbol timeframe : String) (st : Option ℚ) (now : ℚ)
    (candles : List Candle) (sinks : SinkResults) :
    Option TradingSignal × Option ℚ :=
  if candles.isEmpty ∨ candles.length < 50 then (none, st)
  else
    let price := (lastD candles).close
    let r := check_conditions trading candles price
    if r.1 = false then (none, st)
    else
      let entry_min := trading.entry_zone_min.getD 94200
      let entry_max := trading.entry_zone_max.getD 94500
      let stop := trading.stop_loss.getD 93000
      let tp1 := trading.tp1.getD 95800
      let tp2 := trading.tp2.getD 97000
      let tp3 := trading.tp3.getD 98500
      let risk := (entry_min + entry_max) / 2 - stop
      let reward := tp1 - (entry_min + entry_max) / 2
      let rr := if risk > 0 then reward / risk else 0
      let signal : TradingSignal :=
        { signal_type := .LONG
          symbol := symbol
          entry_zone_min := entry_min
          entry_zone_max := entry_max
          stop_loss := stop
          take_profit_1 := tp1
          take_profit_2 := some tp2
          take_profit_3 := some tp3
          pattern_detected := r.2.2.2
          confidence_score := r.2.2.1
          conditions_met := r.2.1
          timestamp := now
          timeframe := timeframe
          current_price := price
          risk_reward := rr
          notes := "Pullback na zona dourada de Fibonacci" }
      let success := notify ncfg sinks
      (some signal, deliveryUpdate st now success)

/-- `BTCMonitor.run_once` (src/main.py): lazy cooldown gate, then
`poll_eval`. -/
def run_once (trading : TradingConfig) (ncfg : NotifierConfig)
    (cooldown : ℚ) (symbol timeframe : String) (st : Option ℚ) (now : ℚ)
    (candles : List Candle) (sinks : SinkResults) :
    Option TradingSignal × Option ℚ :=
  if cooldownActive cooldown st now then (none, st)
  else poll_eval trading ncfg symbol timeframe st now candles sinks

end Main

namespace Monitor

/-- The body of `BTCSignalMonitor.check_and_signal` past the cooldown
gate.  Only the delivery outcome feeds back into the monitor's state, so
the assembled `TradingSignal` record (whose fields mirror
`Main.poll_eval`) is not materialised here; the result is the new
`last_signal_time`, or an error when `check_long_conditions` raises. -/
def poll_eval (trading : TradingConfig) (ncfg : NotifierConfig)
    (st : Option ℚ) (now : ℚ) (candles : List Candle)
    (sinks : SinkResults) : Except Unit (Option ℚ) :=
  if candles.isEmpty ∨ candles.length < 50 then .ok st
  else
    let price := (lastD candles).close
    match check_long_conditions trading candles price with
    | .error e => .error e
    | .ok r =>
      if r.1 then .ok (deliveryUpdate st now (send_signal ncfg sinks))
      else .ok st

/-- `BTCSignalMonitor.check_and_signal` (src/monitor.py): lazy cooldown
gate, then `poll_eval`. -/
def check_and_signal (trading : TradingConfig) (ncfg : NotifierConfig)
    (cooldown : ℚ) (st : Option ℚ) (now : ℚ) (candles : List Candle)
    (sinks : SinkResults) : Except Unit (Option ℚ) :=
  if cooldownActive cooldown st now then .ok st
  else poll_eval trading ncfg st now candles sinks

end Monitor

/-- Banker's rounding to an integer, the behaviour of Python's `round`. -/
def roundHalfEven (q : ℚ) : ℤ :=
  let f := ⌊q⌋
  let frac := q - f
  if frac < 1/2 then f
  else if 1/2 < frac then f + 1
  else if f % 2 = 0 then f else f + 1

/-- Python `round(x, 2)`. -/
def pyRound2 (q : ℚ) : ℚ := (roundHalfEven (q * 100) : ℚ) / 100

namespace Monitor

/-- `SignalType` enum of src/monitor.py. -/
inductive SignalType where
  | LONG
  | SHORT
  | CLOSE
deriving DecidableEq

/-- `.value` of the `SignalType` enum. -/
def SignalType.value : SignalType → String
  | .LONG => "LONG"
  | .SHORT => "SHORT"
  | .CLOSE => "CLOSE"

/-- `.value` of the `CandlePattern` enum. -/
def CandlePattern.value : CandlePattern → String
  | .HAMMER => "HAMMER"
  | .BULLISH_ENGULFING => "BULLISH_ENGULFING"
  | .BEARISH_ENGULFING => "BEARISH_ENGULFING"
  | .DOJI => "DOJI"
  | .PINBAR_BULLISH => "PINBAR_BULLISH"
  | .PINBAR_BEARISH => "PINBAR_BEARISH"
  | .NONE => "NONE"

/-- `TradingSignal` dataclass of src/monitor.py. -/
structure TradingSignal where
  signal_type : SignalType
  symbol : String
  entry_zone_min : ℚ
  entry_zone_max : ℚ
  stop_loss : ℚ
  take_profit_1 : ℚ
  take_profit_2 : Option ℚ
  take_profit_3 : Option ℚ
  pattern_detected : CandlePattern
  confidence_score : ℚ
  conditions_met : List Cond
  timestamp : ℚ
  timeframe : String
  current_price : ℚ
  risk_reward : ℚ
  notes : String
deriving DecidableEq

/-- The flat JSON document produced by `TradingSignal.to_dict` (§6 shape):
nested `entry_zone`/`take_profits` objects flattened into named fields,
enums as their `.value` strings, timestamp as ISO instant (rational
seconds in the model). -/
structure SignalDict where
  signal_type : String
  symbol : String
  entry_zone_min : ℚ
  entry_zone_max : ℚ
  stop_loss : ℚ
  tp1 : ℚ
  tp2 : Option ℚ
  tp3 : Option ℚ
  pattern : String
  confidence_score : ℚ
  conditions_met : List Cond
  timestamp : ℚ
  timeframe : String
  current_price : ℚ
  risk_reward : ℚ
  notes : String
deriving DecidableEq

/-- `TradingSignal.to_dict` (src/monitor.py); note
`round(self.risk_reward_ratio, 2)`. -/
def to_dict (s : TradingSignal) : SignalDict :=
  { signal_type := s.signal_type.value
    symbol := s.symbol
    entry_zone_min := s.entry_zone_min
    entry_zone_max := s.entry_zone_max
    stop_loss := s.stop_loss
    tp1 := s.take_profit_1
    tp2 := s.take_profit_2
    tp3 := s.take_profit_3
    pattern := s.pattern_detected.value
    confidence_score := s.confidence_score
    conditions_met := s.conditions_met
    timestamp := s.timestamp
    timeframe := s.timeframe
    current_price := s.current_price
    risk_reward := pyRound2 s.risk_reward
    notes := s.notes }

/-- Modelled from the spec: the repository has no parser for the signal
document, but §8 requires that a serialized `TradingSignal` "parsed back
yields the same field values"; this decodes the `signal_type` string of
§6, unknown strings defaulting to `CLOSE`. -/
def SignalType.parse (s : String) : SignalType :=
  if s = "LONG" then .LONG
  else if s = "SHORT" then .SHORT
  else .CLOSE

/-- Modelled from the spec: pattern-string decoder for the §6 `pattern`
field, inverse of `.value`, unknown strings defaulting to `NONE`. -/
def CandlePattern.parse (s : String) : CandlePattern :=
  if s = "HAMMER" then .HAMMER
  else if s = "BULLISH_ENGULFING" then .BULLISH_ENGULFING
  else if s = "BEARISH_ENGULFING" then .BEARISH_ENGULFING
  else if s = "DOJI" then .DOJI
  else if s = "PINBAR_BULLISH" then .PINBAR_BULLISH
  else if s = "PINBAR_BEARISH" then .PINBAR_BEARISH
  else .NONE

/-- Modelled from the spec: the round-trip parser of §8 for the §6 JSON
shape, reading every field of the document back into a `TradingSignal`
(the repository ships only the serializer). -/
def from_dict (d : SignalDict) : TradingSignal :=
  { signal_type := SignalType.parse d.signal_type
    symbol := d.symbol
    entry_zone_min := d.entry_zone_min
    entry_zone_max := d.entry_zone_max
    stop_loss := d.stop_loss
    take_profit_1 := d.tp1
    take_profit_2 := d.tp2
    take_profit_3 := d.tp3
    pattern_detected := CandlePattern.parse d.pattern
    confidence_score := d.confidence_score
    conditions_met := d.conditions_met
    timestamp := d.timestamp
    timeframe := d.timeframe
    current_price := d.current_price
    risk_reward := d.risk_reward
    notes := d.notes }

end Monitor

namespace Main

/-- `.value` of src/main.py's `SignalType` enum. -/
def SignalType.value : SignalType → String
  | .LONG => "LONG"
  | .SHORT => "SHORT"

/-- `.value` of src/main.py's `CandlePattern` enum. -/
def MPattern.value : MPattern → String
  | .HAMMER => "HAMMER"
  | .BULLISH_ENGULFING => "BULLISH_ENGULFING"
  | .PINBAR_BULLISH => "PINBAR_BULLISH"
  | .DOJI => "DOJI"
  | .NONE => "NONE"

/-- The flat JSON document produced by src/main.py's
`TradingSignal.to_dict` (same §6 shape as the monitor copy). -/
structure SignalDict where
  signal_type : String
  symbol : String
  entry_zone_min : ℚ
  entry_zone_max : ℚ
  stop_loss : ℚ
  tp1 : ℚ
  tp2 : Option ℚ
  tp3 : Option ℚ
  pattern : String
  confidence_score : ℚ
  conditions_met : List MCond
  timestamp : ℚ
  timeframe : String
  current_price : ℚ
  risk_reward : ℚ
  notes : String
deriving DecidableEq

/-- `TradingSignal.to_dict` (src/main.py), with the same
`round(self.risk_reward_ratio, 2)` as the monitor copy. -/
def to_dict (s : TradingSignal) : SignalDict :=
  { signal_type := s.signal_type.value
    symbol := s.symbol
    entry_zone_min := s.entry_zone_min
    entry_zone_max := s.entry_zone_max
    stop_loss := s.stop_loss
    tp1 := s.take_profit_1
    tp2 := s.take_profit_2
    tp3 := s.take_profit_3
    pattern := s.pattern_detected.value
    confidence_score := s.confidence_score
    conditions_met := s.conditions_met
    timestamp := s.timestamp
    timeframe := s.timeframe
    current_price := s.current_price
    risk_reward := pyRound2 s.risk_reward
    notes := s.notes }

/-- Modelled from the spec: §8 round-trip decoder for src/main.py's
`signal_type` string, unknown strings defaulting to `SHORT`. -/
def SignalType.parse (s : String) : SignalType :=
  if s = "LONG" then .LONG else .SHORT

/-- Modelled from the spec: §8 round-trip decoder for src/main.py's
`pattern` string, unknown strings defaulting to `NONE`. -/
def MPattern.parse (s : String) : MPattern :=
  if s = "HAMMER" then .HAMMER
  else if s = "BULLISH_ENGULFING" then .BULLISH_ENGULFING
  else if s = "PINBAR_BULLISH" then .PINBAR_BULLISH
  else if s = "DOJI" then .DOJI
  else .NONE

/-- Modelled from the spec: §8 round-trip parser for the §6 JSON shape of
src/main.py's serializer (the repository ships only the serializer). -/
def from_dict (d : SignalDict) : TradingSignal :=
  { signal_type := SignalType.parse d.signal_type
    symbol := d.symbol
    entry_zone_min := d.entry_zone_min
    entry_zone_max := d.entry_zone_max
    stop_loss := d.stop_loss
    take_profit_1 := d.tp1
    take_profit_2 := d.tp2
    take_profit_3 := d.tp3
    pattern_detected := MPattern.parse d.pattern
    confidence_score := d.confidence_score
    conditions_met := d.conditions_met
    timestamp := d.timestamp
    timeframe := d.timeframe
    current_price := d.current_price
    risk_reward := d.risk_reward
    notes := d.notes }

end Main

/-- A degenerate candle: all four prices `p`, volume `v`. -/
def flatC (p v : ℚ) : Candle := ⟨0, p, p, p, p, v⟩

/-- 50 identical flat candles: a well-formed series on which nothing
triggers except the (degenerate) entry zone. -/
def seriesFlat : List Candle := List.replicate 50 (flatC 100 1)

set_option maxHeartbeats 2000000 in
theorem eval_flat : Monitor.check_long_conditions emptyTradingConfig seriesFlat 100 =
    .ok (false, [Monitor.Cond.price_in_entry_zone 100 100], 20, .NONE) := by
  norm_num [Monitor.check_long_conditions, seriesFlat, flatC, pyTail, lastD, listMax, listMin,
    Monitor.entry_step, Monitor.pattern_step, Monitor.sma_step, Monitor.rsi_zone_step,
    Monitor.volume_step, Monitor.overbought_step, Monitor.detect_pattern, penultD,
    Monitor.detect_bullish_engulfing, Monitor.detect_bearish_engulfing, Monitor.detect_hammer,
    Monitor.detect_pinbar_bullish, Monitor.detect_doji, Candle.is_bullish, Candle.is_bearish,
    Candle.body, Candle.range, Candle.lower_wick, Candle.upper_wick,
    sma, Monitor.rsi, Monitor.rsiGains, Monitor.rsiLosses, Monitor.rsi_avg_loss, deltas,
    truthyQ, Monitor.fibonacci_levels, Monitor.bullish_patterns, Monitor.cadd,
    emptyTradingConfig, List.replicate]
  simp

/-- 50-candle series engineered so that every weighted condition of
`check_long_conditions` triggers at once: flat base, a strong rise, a
small net dip in the last 14 deltas (RSI 100/3), a volume doubling on the
final bar, and a bullish engulfing pair at the end. -/
def series105 : List Candle :=
  List.replicate 30 (flatC 100 1) ++
  [flatC 120 1, flatC 140 1, flatC 160 1, flatC 180 1, flatC 200 1,
   flatC 220 1, flatC 220 1, flatC 218 1] ++
  List.replicate 10 (flatC 218 1) ++
  [⟨0, 437/2, 437/2, 218, 218, 1⟩, ⟨0, 435/2, 219, 435/2, 219, 2⟩]

/-- Trading dict with an entry zone wide enough to always hold. -/
def cfg105 : TradingConfig :=
  ⟨some 0, some 1000000, none, none, none, none, none, none⟩

set_option maxHeartbeats 4000000 in
/-- On `series105` every condition fires and the confidence sums to 105. -/
theorem eval105 : Monitor.check_long_conditions cfg105 series105 219 =
    .ok (true,
      [Monitor.Cond.price_in_entry_zone 0 1000000,
       Monitor.Cond.pattern_reversal .BULLISH_ENGULFING,
       Monitor.Cond.price_above_sma21 (4175/21),
       Monitor.Cond.smas_aligned,
       Monitor.Cond.rsi_support (100/3),
       Monitor.Cond.volume_above_avg 2,
       Monitor.Cond.rsi_not_overbought],
      105, .BULLISH_ENGULFING) := by
  norm_num [Monitor.check_long_conditions, series105, cfg105, flatC, pyTail, lastD, listMax,
    listMin, Monitor.entry_step, Monitor.pattern_step, Monitor.sma_step, Monitor.rsi_zone_step,
    Monitor.volume_step, Monitor.overbought_step, Monitor.detect_pattern, penultD,
    Monitor.detect_bullish_engulfing, Monitor.detect_bearish_engulfing, Monitor.detect_hammer,
    Monitor.detect_pinbar_bullish, Monitor.detect_doji, Candle.is_bullish, Candle.is_bearish,
    Candle.body, Candle.range, Candle.lower_wick, Candle.upper_wick,
    sma, Monitor.rsi, Monitor.rsiGains, Monitor.rsiLosses, Monitor.rsi_avg_loss, deltas,
    truthyQ, Monitor.fibonacci_levels, Monitor.bullish_patterns, Monitor.cadd,
    List.replicate]

/-- 50-candle series whose 9 volumes before the last bar are all zero
while the last bar's volume is positive. -/
def seriesZeroVol : List Candle :=
  List.replicate 40 (flatC 100 1) ++ List.replicate 9 (flatC 100 0) ++ [flatC 100 1]

set_option maxHeartbeats 4000000 in
/-- On `seriesZeroVol` the monitor evaluator hits the
`current_volume/avg_volume` f-string with `avg_volume = 0`: the Python
code raises `ZeroDivisionError` there. -/
theorem evalZeroVol :
    Monitor.check_long_conditions emptyTradingConfig seriesZeroVol 100 = .error () := by
  norm_num [Monitor.check_long_conditions, seriesZeroVol, emptyTradingConfig, flatC, pyTail,
    lastD, listMax, listMin, Monitor.entry_step, Monitor.pattern_step, Monitor.sma_step,
    Monitor.rsi_zone_step, Monitor.volume_step, Monitor.overbought_step, Monitor.detect_pattern,
    penultD, Monitor.detect_bullish_engulfing, Monitor.detect_bearish_engulfing,
    Monitor.detect_hammer, Monitor.detect_pinbar_bullish, Monitor.detect_doji,
    Candle.is_bullish, Candle.is_bearish, Candle.body, Candle.range, Candle.lower_wick,
    Candle.upper_wick, sma, Monitor.rsi, Monitor.rsiGains, Monitor.rsiLosses,
    Monitor.rsi_avg_loss, deltas, truthyQ, Monitor.fibonacci_levels, Monitor.bullish_patterns,
    Monitor.cadd, List.replicate]

/-- On the same degenerate-volume series, src/main.py's evaluator skips
the volume condition under its `avg_vol > 0` guard instead of raising. -/
theorem evalZeroVolMain :
    Main.check_conditions emptyTradingConfig seriesZeroVol 100 = (false, [], 0, .NONE) := by
  norm_num [Main.check_conditions, seriesZeroVol, emptyTradingConfig, flatC, pyTail,
    lastD, Main.entry_step, Main.pattern_step, Main.sma_step,
    Main.rsi_zone_step, Main.volume_step, Main.detect,
    penultD, Main.detect_engulfing,
    Main.detect_hammer, Main.detect_pinbar, Main.detect_doji,
    Candle.is_bullish, Candle.is_bearish, Candle.body, Candle.range, Candle.lower_wick,
    Candle.upper_wick, sma, Main.rsi, deltas, truthyQ, Main.bullish_patterns,
    Main.cadd, List.replicate]
  simp

/-- 50 strictly falling closes: every delta is a loss, so the RSI is
exactly 0 and Python's `if rsi and rsi < 70` misses the not-overbought
condition. -/
def seriesRsi0 : List Candle :=
  [flatC 1000 1, flatC 999 1, flatC 998 1, flatC 997 1, flatC 996 1, flatC 995 1, flatC 994 1, flatC 993 1, flatC 992 1, flatC 991 1, flatC 990 1, flatC 989 1, flatC 988 1, flatC 987 1, flatC 986 1, flatC 985 1, flatC 984 1, flatC 983 1, flatC 982 1, flatC 981 1, flatC 980 1, flatC 979 1, flatC 978 1, flatC 977 1, flatC 976 1, flatC 975 1, flatC 974 1, flatC 973 1, flatC 972 1, flatC 971 1, flatC 970 1, flatC 969 1, flatC 968 1, flatC 967 1, flatC 966 1, flatC 965 1, flatC 964 1, flatC 963 1, flatC 962 1, flatC 961 1, flatC 960 1, flatC 959 1, flatC 958 1, flatC 957 1, flatC 956 1, flatC 955 1, flatC 954 1, flatC 953 1, flatC 952 1, flatC 951 1]

set_option maxHeartbeats 4000000 in
/-- On `seriesRsi0` nothing triggers: in particular the not-overbought
condition is absent even though the RSI (exactly 0) is below 70. -/
theorem evalRsi0 :
    Monitor.check_long_conditions emptyTradingConfig seriesRsi0 0 = .ok (false, [], 0, .NONE) := by
  norm_num [Monitor.check_long_conditions, seriesRsi0, emptyTradingConfig, flatC, pyTail,
    lastD, listMax, listMin, Monitor.entry_step, Monitor.pattern_step, Monitor.sma_step,
    Monitor.rsi_zone_step, Monitor.volume_step, Monitor.overbought_step, Monitor.detect_pattern,
    penultD, Monitor.detect_bullish_engulfing, Monitor.detect_bearish_engulfing,
    Monitor.detect_hammer, Monitor.detect_pinbar_bullish, Monitor.detect_doji,
    Candle.is_bullish, Candle.is_bearish, Candle.body, Candle.range, Candle.lower_wick,
    Candle.upper_wick, sma, Monitor.rsi, Monitor.rsiGains, Monitor.rsiLosses,
    Monitor.rsi_avg_loss, deltas, truthyQ, Monitor.fibonacci_levels, Monitor.bullish_patterns,
    Monitor.cadd, List.replicate]
  simp

set_option maxHeartbeats 1000000 in
/-- The RSI of the falling series is exactly 0. -/
theorem evalRsi0_rsi : Monitor.rsi (seriesRsi0.map Candle.close) 14 = some 0 := by
  norm_num [Monitor.rsi, Monitor.rsiGains, Monitor.rsiLosses, Monitor.rsi_avg_loss,
    seriesRsi0, flatC, pyTail, deltas]

/-- Two sinks configured (generic webhook and Discord); only the first
delivery succeeds. -/
def cfgTwo : NotifierConfig := ⟨true, false, false, true, false⟩

/-- Per-sink outcomes: webhook delivery succeeds, every other fails. -/
def resOne : SinkResults := ⟨true, false, false, false⟩

/-- C1 counterexample: with two sinks configured and exactly one
succeeding, `SignalNotifier.send_signal` (src/monitor.py) reports
failure even though at least one configured sink reported success, so
the delivery step is not the claimed any-success reduction. -/
theorem c1_counterexample :
    attempted cfgTwo resOne = [true, false] ∧
    (attempted cfgTwo resOne).any id = true ∧
    send_signal cfgTwo resOne = false := by
  decide

/-- C1 (amended): src/main.py's `notify` reports success iff at least one
configured sink succeeds; src/monitor.py's `send_signal` reports success
iff at least one sink is configured and every attempted sink succeeds;
in both drivers a successful delivery sets the last-signal timestamp to
the current instant and a failed delivery leaves it unchanged. -/
theorem c1_delivery_reduction :
    (∀ cfg r, notify cfg r = (attempted cfg r).any id) ∧
    (∀ cfg r, send_signal cfg r =
      (!(attempted cfg r).isEmpty && (attempted cfg r).all id)) ∧
    (∀ st now, deliveryUpdate st now true = some now ∧ deliveryUpdate st now false = st) := by
  refine ⟨fun cfg r => ?_, fun cfg r => ?_, fun st now => ⟨rfl, rfl⟩⟩
  · unfold notify
    rcases attempted cfg r with _ | ⟨a, l⟩ <;> simp
  · unfold send_signal
    rcases attempted cfg r with _ | ⟨a, l⟩ <;> simp

/-- C5: while the cooldown is active (`now - last < cooldown`) both poll
loops return no decision, leave the state untouched and never look at the
market data; as soon as `now - last ≥ cooldown` both loops are exactly
their ungated evaluation bodies again. -/
theorem c5_cooldown_gate :
    ∀ trading ncfg cooldown symbol timeframe T now candles sinks,
      (now - T < cooldown →
        Main.run_once trading ncfg cooldown symbol timeframe (some T) now candles sinks =
          (none, some T) ∧
        Monitor.check_and_signal trading ncfg cooldown (some T) now candles sinks =
          .ok (some T)) ∧
      (cooldown ≤ now - T →
        Main.run_once trading ncfg cooldown symbol timeframe (some T) now candles sinks =
          Main.poll_eval trading ncfg symbol timeframe (some T) now candles sinks ∧
        Monitor.check_and_signal trading ncfg cooldown (some T) now candles sinks =
          Monitor.poll_eval trading ncfg (some T) now candles sinks) := by
  intro trading ncfg cooldown symbol timeframe T now candles sinks
  constructor
  · intro h
    constructor
    · simp [Main.run_once, cooldownActive, h]
    · simp [Monitor.check_and_signal, cooldownActive, h]
  · intro h
    have h2 : ¬(now - T < cooldown) := not_lt.mpr h
    constructor
    · simp [Main.run_once, cooldownActive, h2]
    · simp [Monitor.check_and_signal, cooldownActive, h2]

/-- C5 witness: a concrete blocked poll (10 seconds after a signal with a
3600-second cooldown) returns no decision and keeps the state. -/
theorem c5_cooldown_gate_witness :
    Main.run_once emptyTradingConfig no_sinks 3600 "BTCUSD-PERP" "1h" (some 0) 10 [] resOne =
      (none, some 0) ∧
    Monitor.check_and_signal emptyTradingConfig no_sinks 3600 (some 0) 10 [] resOne =
      .ok (some 0) :=
  (c5_cooldown_gate emptyTradingConfig no_sinks 3600 "BTCUSD-PERP" "1h" 0 10 [] resOne).1
    (by norm_num)

/-- C10: with no notification channel configured the delivery step always
reports failure in both copies, a poll starting from the never-signalled
state always ends in the never-signalled state, and whether a poll
returns a signal does not depend on the poll instant — so a market state
that fires once keeps firing on every later poll. -/
theorem c10_no_sinks_refire :
    (∀ r, send_signal no_sinks r = false ∧ notify no_sinks r = false) ∧
    (∀ trading cooldown symbol timeframe now candles sinks,
      (Main.run_once trading no_sinks cooldown symbol timeframe none now candles sinks).2 =
        none) ∧
    (∀ trading cooldown symbol timeframe now now2 candles sinks,
      (Main.run_once trading no_sinks cooldown symbol timeframe none now candles sinks).1.isSome =
      (Main.run_once trading no_sinks cooldown symbol timeframe none now2 candles sinks).1.isSome) ∧
    (∀ trading cooldown now candles sinks st2,
      Monitor.check_and_signal trading no_sinks cooldown none now candles sinks = .ok st2 →
        st2 = none) := by
  have hatt : ∀ r, attempted no_sinks r = [] := by intro r; rfl
  have hsend : ∀ r, send_signal no_sinks r = false := by
    intro r; unfold send_signal; rw [hatt]; rfl
  have hnot : ∀ r, notify no_sinks r = false := by
    intro r; unfold notify; rw [hatt]; rfl
  refine ⟨fun r => ⟨hsend r, hnot r⟩, ?_, ?_, ?_⟩
  · intro trading cooldown symbol timeframe now candles sinks
    simp only [Main.run_once, Main.poll_eval, cooldownActive]
    split
    · rfl
    · split
      · rfl
      · simp only [hnot, deliveryUpdate]
        split <;> rfl
  · intro trading cooldown symbol timeframe now now2 candles sinks
    simp only [Main.run_once, Main.poll_eval, cooldownActive]
    split
    · rfl
    · split
      · rfl
      · split <;> simp
  · intro trading cooldown now candles sinks st2 h
    simp only [Monitor.check_and_signal, Monitor.poll_eval, cooldownActive] at h
    split at h
    · simpa using h.symm
    · split at h
      · simpa using h.symm
      · split at h
        · exact absurd h (by simp)
        · split at h
          · rw [Except.ok.injEq] at h
            rw [← h, hsend, deliveryUpdate]
            rfl
          · simpa using h.symm

/-- C10 witness: the monitor-loop conjunct applied at a concrete blocked
poll (empty candle list) indeed leaves the state unset. -/
theorem c10_no_sinks_refire_witness : (none : Option ℚ) = none :=
  c10_no_sinks_refire.2.2.2 emptyTradingConfig 3600 0 [] resOne none
    (by simp [Monitor.check_and_signal, Monitor.poll_eval, cooldownActive])

/-- C7: both pattern detectors return `NONE` on fewer than 2 candles and
otherwise classify the last two candles by fixed priority, first match
wins — bullish engulfing, then (monitor copy only) bearish engulfing,
then hammer, then bullish pinbar, then doji, `NONE` exactly when no test
matches; in particular a bar that is both an engulfing and a hammer is
classified `BULLISH_ENGULFING`. -/
theorem c7_pattern_priority :
    (∀ candles, candles.length < 2 →
      Monitor.detect_pattern candles = .NONE ∧ Main.detect candles = .NONE) ∧
    (∀ candles, 2 ≤ candles.length →
      (Monitor.detect_pattern candles = .BULLISH_ENGULFING ↔
        Monitor.detect_bullish_engulfing (lastD candles) (penultD candles) = true) ∧
      (Monitor.detect_pattern candles = .BEARISH_ENGULFING ↔
        (Monitor.detect_bullish_engulfing (lastD candles) (penultD candles) = false ∧
         Monitor.detect_bearish_engulfing (lastD candles) (penultD candles) = true)) ∧
      (Monitor.detect_pattern candles = .HAMMER ↔
        (Monitor.detect_bullish_engulfing (lastD candles) (penultD candles) = false ∧
         Monitor.detect_bearish_engulfing (lastD candles) (penultD candles) = false ∧
         Monitor.detect_hammer (lastD candles) = true)) ∧
      (Monitor.detect_pattern candles = .PINBAR_BULLISH ↔
        (Monitor.detect_bullish_engulfing (lastD candles) (penultD candles) = false ∧
         Monitor.detect_bearish_engulfing (lastD candles) (penultD candles) = false ∧
         Monitor.detect_hammer (lastD candles) = false ∧
         Monitor.detect_pinbar_bullish (lastD candles) = true)) ∧
      (Monitor.detect_pattern candles = .DOJI ↔
        (Monitor.detect_bullish_engulfing (lastD candles) (penultD candles) = false ∧
         Monitor.detect_bearish_engulfing (lastD candles) (penultD candles) = false ∧
         Monitor.detect_hammer (lastD candles) = false ∧
         Monitor.detect_pinbar_bullish (lastD candles) = false ∧
         Monitor.detect_doji (lastD candles) = true)) ∧
      (Monitor.detect_pattern candles = .NONE ↔
        (Monitor.detect_bullish_engulfing (lastD candles) (penultD candles) = false ∧
         Monitor.detect_bearish_engulfing (lastD candles) (penultD candles) = false ∧
         Monitor.detect_hammer (lastD candles) = false ∧
         Monitor.detect_pinbar_bullish (lastD candles) = false ∧
         Monitor.detect_doji (lastD candles) = false)) ∧
      (Monitor.detect_bullish_engulfing (lastD candles) (penultD candles) = true ∧
         Monitor.detect_hammer (lastD candles) = true →
        Monitor.detect_pattern candles = .BULLISH_ENGULFING)) ∧
    (∀ candles, 2 ≤ candles.length →
      (Main.detect candles = .BULLISH_ENGULFING ↔
        Main.detect_engulfing (lastD candles) (penultD candles) = true) ∧
      (Main.detect candles = .HAMMER ↔
        (Main.detect_engulfing (lastD candles) (penultD candles) = false ∧
         Main.detect_hammer (lastD candles) = true)) ∧
      (Main.detect candles = .PINBAR_BULLISH ↔
        (Main.detect_engulfing (lastD candles) (penultD candles) = false ∧
         Main.detect_hammer (lastD candles) = false ∧
         Main.detect_pinbar (lastD candles) = true)) ∧
      (Main.detect candles = .DOJI ↔
        (Main.detect_engulfing (lastD candles) (penultD candles) = false ∧
         Main.detect_hammer (lastD candles) = false ∧
         Main.detect_pinbar (lastD candles) = false ∧
         Main.detect_doji (lastD candles) = true)) ∧
      (Main.detect candles = .NONE ↔
        (Main.detect_engulfing (lastD candles) (penultD candles) = false ∧
         Main.detect_hammer (lastD candles) = false ∧
         Main.detect_pinbar (lastD candles) = false ∧
         Main.detect_doji (lastD candles) = false)) ∧
      (Main.detect_engulfing (lastD candles) (penultD candles) = true ∧
         Main.detect_hammer (lastD candles) = true →
        Main.detect candles = .BULLISH_ENGULFING)) := by
  refine ⟨fun candles h => ?_, fun candles h => ?_, fun candles h => ?_⟩
  · constructor
    · simp [Monitor.detect_pattern, h]
    · simp [Main.detect, h]
  · simp only [Monitor.detect_pattern]
    rw [if_neg (by omega)]
    cases hbe : Monitor.detect_bullish_engulfing (lastD candles) (penultD candles) <;>
      cases hbre : Monitor.detect_bearish_engulfing (lastD candles) (penultD candles) <;>
        cases hham : Monitor.detect_hammer (lastD candles) <;>
          cases hpin : Monitor.detect_pinbar_bullish (lastD candles) <;>
            cases hdoj : Monitor.detect_doji (lastD candles) <;>
              simp [hbe, hbre, hham, hpin, hdoj]
  · simp only [Main.detect]
    rw [if_neg (by omega)]
    cases hbe : Main.detect_engulfing (lastD candles) (penultD candles) <;>
      cases hham : Main.detect_hammer (lastD candles) <;>
        cases hpin : Main.detect_pinbar (lastD candles) <;>
          cases hdoj : Main.detect_doji (lastD candles) <;>
            simp [hbe, hham, hpin, hdoj]

/-- Two candles whose second bar is simultaneously a bullish-engulfing
completion and a hammer. -/
def pairEH : List Candle := [⟨0, 10, 10, 4, 4, 0⟩, ⟨0, 3, 11, -13, 11, 0⟩]

/-- C7 witness: the priority theorem applied to `pairEH`, whose last bar
satisfies both the engulfing and the hammer geometry, yields
`BULLISH_ENGULFING`. -/
theorem c7_pattern_priority_witness :
    Monitor.detect_pattern pairEH = .BULLISH_ENGULFING :=
  (c7_pattern_priority.2.1 pairEH (by norm_num [pairEH])).2.2.2.2.2.2
    ⟨by norm_num [pairEH, lastD, penultD, Monitor.detect_bullish_engulfing,
        Candle.is_bullish, Candle.is_bearish],
     by norm_num [pairEH, lastD, Monitor.detect_hammer, Candle.body,
        Candle.lower_wick, Candle.upper_wick]⟩

/-- Every element of a Python tail slice is an element of the list. -/
theorem pyTail_mem {α : Type} {x : α} {n : ℕ} {l : List α}
    (hx : x ∈ pyTail n l) : x ∈ l := by
  unfold pyTail at hx
  split at hx
  · exact hx
  · exact List.mem_of_mem_drop hx

/-- The gains list of the monitor RSI is pointwise nonnegative. -/
theorem rsiGains_nonneg {prices : List ℚ} :
    ∀ x ∈ Monitor.rsiGains prices, 0 ≤ x := by
  intro x hx
  rcases List.mem_map.mp hx with ⟨ch, _, rfl⟩
  split
  · assumption
  · exact le_refl 0

/-- The losses list of the monitor RSI is pointwise nonnegative. -/
theorem rsiLosses_nonneg {prices : List ℚ} :
    ∀ x ∈ Monitor.rsiLosses prices, 0 ≤ x := by
  intro x hx
  rcases List.mem_map.mp hx with ⟨ch, _, rfl⟩
  split
  · exact le_refl 0
  · exact abs_nonneg ch

/-- src/main.py builds its RSI gains list with `max(0, change)`, the
monitor copy with an if/else; they agree pointwise. -/
theorem rsi_gains_agree (prices : List ℚ) :
    (deltas prices).map (fun change => max 0 change) = Monitor.rsiGains prices := by
  unfold Monitor.rsiGains
  refine List.map_congr_left ?_
  intro ch _
  rcases le_or_lt 0 ch with hc | hc
  · rw [if_pos hc, max_eq_right hc]
  · rw [if_neg (not_le.mpr hc), max_eq_left (le_of_lt hc)]

/-- Same agreement for the losses lists (`max(0, -change)` versus
`abs(change)` guarded on sign). -/
theorem rsi_losses_agree (prices : List ℚ) :
    (deltas prices).map (fun change => max 0 (-change)) = Monitor.rsiLosses prices := by
  unfold Monitor.rsiLosses
  refine List.map_congr_left ?_
  intro ch _
  rcases le_or_lt 0 ch with hc | hc
  · rw [if_pos hc, max_eq_left (by linarith)]
  · rw [if_neg (not_le.mpr hc), max_eq_right (by linarith), abs_of_neg hc]

/-- C6: with enough data both RSI copies return a value in `[0, 100]`,
exactly `100` when the average loss is zero; with fewer than `period + 1`
prices both return `None` (never an arithmetic error); and the two
copies agree everywhere. -/
theorem c6_rsi_range :
    (∀ (prices : List ℚ) (period : ℕ), prices.length < period + 1 →
      Monitor.rsi prices period = none ∧ Main.rsi prices period = none) ∧
    (∀ (prices : List ℚ) (period : ℕ), 0 < period → period + 1 ≤ prices.length →
      ∃ v, Monitor.rsi prices period = some v ∧ 0 ≤ v ∧ v ≤ 100 ∧
        (Monitor.rsi_avg_loss prices period = 0 → v = 100)) ∧
    (∀ (prices : List ℚ) (period : ℕ), Main.rsi prices period = Monitor.rsi prices period) := by
  refine ⟨fun prices period h => ?_, fun prices period hper hlen => ?_, fun prices period => ?_⟩
  · constructor
    · simp [Monitor.rsi, h]
    · simp [Main.rsi, h]
  · have hnot : ¬(prices.length < period + 1) := by omega
    have hal : 0 ≤ Monitor.rsi_avg_loss prices period := by
      unfold Monitor.rsi_avg_loss
      refine div_nonneg (List.sum_nonneg ?_) (by positivity)
      exact fun x hx => rsiLosses_nonneg x (pyTail_mem hx)
    have hag : 0 ≤ (pyTail period (Monitor.rsiGains prices)).sum / (period : ℚ) := by
      refine div_nonneg (List.sum_nonneg ?_) (by positivity)
      exact fun x hx => rsiGains_nonneg x (pyTail_mem hx)
    simp only [Monitor.rsi, if_neg hnot]
    by_cases hz : Monitor.rsi_avg_loss prices period = 0
    · refine ⟨100, by simp [hz], by norm_num, by norm_num, fun _ => rfl⟩
    · have halpos : 0 < Monitor.rsi_avg_loss prices period := lt_of_le_of_ne hal (Ne.symm hz)
      set rs := (pyTail period (Monitor.rsiGains prices)).sum / (period : ℚ) /
        Monitor.rsi_avg_loss prices period with hrs
      have hrs0 : 0 ≤ rs := div_nonneg hag (le_of_lt halpos)
      have hden : (0:ℚ) < 1 + rs := by linarith
      have hfrac_pos : 0 < 100 / (1 + rs) := div_pos (by norm_num) hden
      have hfrac_le : 100 / (1 + rs) ≤ 100 := div_le_self (by norm_num) (by linarith)
      refine ⟨100 - 100 / (1 + rs), by simp [hz, hrs], by linarith, by linarith,
        fun hcontra => absurd hcontra hz⟩
  · simp only [Main.rsi, Monitor.rsi, Monitor.rsi_avg_loss,
      rsi_gains_agree, rsi_losses_agree]

/-- 15 constant prices: enough data for the default period. -/
def prices15 : List ℚ := List.replicate 15 100

/-- C6 witness: the range theorem applied at 15 constant prices (all
deltas zero, so the average loss is zero and the RSI is exactly 100). -/
theorem c6_rsi_range_witness :
    (0:ℕ) < 14 ∧ 14 + 1 ≤ prices15.length ∧
    ∃ v, Monitor.rsi prices15 14 = some v ∧ 0 ≤ v ∧ v ≤ 100 ∧
      (Monitor.rsi_avg_loss prices15 14 = 0 → v = 100) :=
  ⟨by norm_num, by simp [prices15], c6_rsi_range.2.1 prices15 14 (by norm_num) (by simp [prices15])⟩

/-- C2: in both evaluator copies the returned fire decision is true
exactly when the returned condition count, confidence and pattern pass
the three-way AND (count ≥ min_conditions, confidence ≥ min_confidence,
pattern among the three bullish-reversal patterns); in particular a Doji
or no-pattern evaluation never fires. -/
theorem c2_fire_decision :
    (∀ config candles price r, 50 ≤ candles.length →
      Monitor.check_long_conditions config candles price = .ok r →
      ((r.1 = true ↔
        (config.min_conditions.getD 4 ≤ r.2.1.length ∧
         config.min_confidence.getD 60 ≤ r.2.2.1 ∧
         r.2.2.2 ∈ Monitor.bullish_patterns)) ∧
       ((r.2.2.2 = .DOJI ∨ r.2.2.2 = .NONE) → r.1 = false))) ∧
    (∀ trading candles price, 50 ≤ candles.length →
      (((Main.check_conditions trading candles price).1 = true ↔
        (trading.min_conditions.getD 4 ≤
          (Main.check_conditions trading candles price).2.1.length ∧
         trading.min_confidence.getD 60 ≤
          (Main.check_conditions trading candles price).2.2.1 ∧
         (Main.check_conditions trading candles price).2.2.2 ∈ Main.bullish_patterns)) ∧
       (((Main.check_conditions trading candles price).2.2.2 = .DOJI ∨
         (Main.check_conditions trading candles price).2.2.2 = .NONE) →
        (Main.check_conditions trading candles price).1 = false))) := by
  constructor
  · intro config candles price r _ h
    simp only [Monitor.check_long_conditions] at h
    split at h
    · exact absurd h (by simp)
    · split at h
      · exact absurd h (by simp)
      · rw [Except.ok.injEq] at h
        subst h
        constructor
        · simp [Bool.and_eq_true, decide_eq_true_eq, ge_iff_le, and_assoc]
        · intro hpat
          have hp : Monitor.detect_pattern candles = Monitor.CandlePattern.DOJI ∨
              Monitor.detect_pattern candles = Monitor.CandlePattern.NONE := hpat
          rcases hp with hp | hp <;> simp [hp, Monitor.bullish_patterns]
  · intro trading candles price _
    constructor
    · simp only [Main.check_conditions]
      simp [Bool.and_eq_true, decide_eq_true_eq, ge_iff_le, and_assoc]
    · intro hpat
      have hp : Main.detect candles = Main.MPattern.DOJI ∨
          Main.detect candles = Main.MPattern.NONE := hpat
      simp only [Main.check_conditions]
      rcases hp with hp | hp <;> simp [hp, Main.bullish_patterns]

/-- C2 witness: the fire-decision characterisation applied to the flat
50-candle series (one condition, confidence 20, no pattern: no fire). -/
theorem c2_fire_decision_witness : (false : Bool) = false :=
  (c2_fire_decision.1 emptyTradingConfig seriesFlat 100
      (false, [Monitor.Cond.price_in_entry_zone 100 100], 20, .NONE)
      (by simp [seriesFlat]) eval_flat).2 (Or.inr rfl)

/-- Entry-zone contribution is between 0 and 20. -/
theorem entry_step_conf (a b p : ℚ) :
    0 ≤ (Monitor.entry_step a b p).2 ∧ (Monitor.entry_step a b p).2 ≤ 20 := by
  unfold Monitor.entry_step
  split_ifs <;> norm_num

/-- Pattern contribution is between 0 and 25. -/
theorem pattern_step_conf (p : Monitor.CandlePattern) :
    0 ≤ (Monitor.pattern_step p).2 ∧ (Monitor.pattern_step p).2 ≤ 25 := by
  unfold Monitor.pattern_step
  split_ifs <;> norm_num

/-- SMA-block contribution is between 0 and 30. -/
theorem sma_step_conf (p : ℚ) (s7 s21 s50 : Option ℚ) :
    0 ≤ (Monitor.sma_step p s7 s21 s50).2 ∧ (Monitor.sma_step p s7 s21 s50).2 ≤ 30 := by
  unfold Monitor.sma_step Monitor.cadd
  split_ifs <;> norm_num

/-- RSI-zone contribution is between 0 and 15. -/
theorem rsi_zone_step_conf (rv : Option ℚ) :
    0 ≤ (Monitor.rsi_zone_step rv).2 ∧ (Monitor.rsi_zone_step rv).2 ≤ 15 := by
  unfold Monitor.rsi_zone_step
  split_ifs <;> norm_num

/-- A successful volume step contributes between 0 and 10. -/
theorem volume_step_conf {avg cur : ℚ} {s5 : List Monitor.Cond × ℚ}
    (h : Monitor.volume_step avg cur = .ok s5) : 0 ≤ s5.2 ∧ s5.2 ≤ 10 := by
  unfold Monitor.volume_step at h
  split_ifs at h <;> rw [Except.ok.injEq] at h <;> rw [← h] <;> norm_num

/-- Not-overbought contribution is between 0 and 5. -/
theorem overbought_step_conf (rv : Option ℚ) :
    0 ≤ (Monitor.overbought_step rv).2 ∧ (Monitor.overbought_step rv).2 ≤ 5 := by
  unfold Monitor.overbought_step
  split_ifs <;> norm_num

/-- src/main.py entry-zone contribution is between 0 and 25. -/
theorem main_entry_step_conf (a b p : ℚ) :
    0 ≤ (Main.entry_step a b p).2 ∧ (Main.entry_step a b p).2 ≤ 25 := by
  unfold Main.entry_step
  split_ifs <;> norm_num

/-- src/main.py pattern contribution is between 0 and 25. -/
theorem main_pattern_step_conf (p : Main.MPattern) :
    0 ≤ (Main.pattern_step p).2 ∧ (Main.pattern_step p).2 ≤ 25 := by
  unfold Main.pattern_step
  split_ifs <;> norm_num

/-- src/main.py SMA-block contribution is between 0 and 25. -/
theorem main_sma_step_conf (p : ℚ) (s7 s21 : Option ℚ) :
    0 ≤ (Main.sma_step p s7 s21).2 ∧ (Main.sma_step p s7 s21).2 ≤ 25 := by
  unfold Main.sma_step Main.cadd
  split_ifs <;> norm_num

/-- src/main.py RSI-zone contribution is between 0 and 15. -/
theorem main_rsi_zone_step_conf (rv : Option ℚ) :
    0 ≤ (Main.rsi_zone_step rv).2 ∧ (Main.rsi_zone_step rv).2 ≤ 15 := by
  unfold Main.rsi_zone_step
  split_ifs <;> norm_num

/-- src/main.py volume contribution is between 0 and 10. -/
theorem main_volume_step_conf (avg cur : ℚ) :
    0 ≤ (Main.volume_step avg cur).2 ∧ (Main.volume_step avg cur).2 ≤ 10 := by
  unfold Main.volume_step
  split_ifs <;> norm_num

/-- C3 counterexample: on `series105` (50 candles) with a wide-open entry
zone, the monitor evaluator returns confidence 105, outside `[0, 100]`:
the seven weights 20+25+15+15+15+10+5 sum to 105. -/
theorem c3_counterexample :
    (Monitor.check_long_conditions cfg105 series105 219).map (fun r => r.2.2.1) =
      .ok 105 ∧
    ¬((105:ℚ) ≤ 100) ∧ 50 ≤ series105.length := by
  refine ⟨?_, by norm_num, by norm_num [series105]⟩
  rw [eval105]
  rfl

/-- C3 (amended): the monitor evaluator's confidence always lies in
`[0, 105]` (the weight table sums to 105, attained on `series105`), and
src/main.py's evaluator's confidence always lies in `[0, 100]`. -/
theorem c3_confidence_range :
    (∀ config candles price r, 50 ≤ candles.length →
      Monitor.check_long_conditions config candles price = .ok r →
      0 ≤ r.2.2.1 ∧ r.2.2.1 ≤ 105) ∧
    (∀ trading candles price, 50 ≤ candles.length →
      0 ≤ (Main.check_conditions trading candles price).2.2.1 ∧
      (Main.check_conditions trading candles price).2.2.1 ≤ 100) := by
  constructor
  · intro config candles price r _ h
    simp only [Monitor.check_long_conditions] at h
    split at h
    · exact absurd h (by simp)
    · split at h
      · exact absurd h (by simp)
      · rw [Except.ok.injEq] at h
        subst h
        rename_i s5 heq
        obtain ⟨e0, e1⟩ := entry_step_conf
          (config.entry_zone_min.getD
            (Monitor.fibonacci_levels (listMax ((pyTail 50 candles).map Candle.high))
              (listMin ((pyTail 50 candles).map Candle.low))).r382)
          (config.entry_zone_max.getD
            (Monitor.fibonacci_levels (listMax ((pyTail 50 candles).map Candle.high))
              (listMin ((pyTail 50 candles).map Candle.low))).r236)
          price
        obtain ⟨p0, p1⟩ := pattern_step_conf (Monitor.detect_pattern candles)
        obtain ⟨s0, s1⟩ := sma_step_conf price (sma (candles.map Candle.close) 7)
          (sma (candles.map Candle.close) 21) (sma (candles.map Candle.close) 50)
        obtain ⟨z0, z1⟩ := rsi_zone_step_conf (Monitor.rsi (candles.map Candle.close) 14)
        obtain ⟨v0, v1⟩ := volume_step_conf heq
        obtain ⟨o0, o1⟩ := overbought_step_conf (Monitor.rsi (candles.map Candle.close) 14)
        constructor
        · change (0:ℚ) ≤ _ + _ + _ + _ + _ + _
          linarith
        · change _ + _ + _ + _ + _ + _ ≤ (105:ℚ)
          linarith
  · intro trading candles price _
    simp only [Main.check_conditions]
    obtain ⟨e0, e1⟩ := main_entry_step_conf (trading.entry_zone_min.getD 94200)
      (trading.entry_zone_max.getD 94500) price
    obtain ⟨p0, p1⟩ := main_pattern_step_conf (Main.detect candles)
    obtain ⟨s0, s1⟩ := main_sma_step_conf price (sma (candles.map Candle.close) 7)
      (sma (candles.map Candle.close) 21)
    obtain ⟨z0, z1⟩ := main_rsi_zone_step_conf (Main.rsi (candles.map Candle.close) 14)
    obtain ⟨v0, v1⟩ := main_volume_step_conf
      (if ((pyTail 10 candles).map Candle.volume).length > 1 then
        ((pyTail 10 candles).map Candle.volume).dropLast.sum /
          (((pyTail 10 candles).map Candle.volume).dropLast.length : ℚ)
      else 0) (lastD candles).volume
    constructor
    · change (0:ℚ) ≤ _ + _ + _ + _ + _
      linarith
    · change _ + _ + _ + _ + _ ≤ (100:ℚ)
      linarith

/-- C3 witness: the range bounds applied to the flat series, whose
confidence is 20. -/
theorem c3_confidence_range_witness : (0:ℚ) ≤ 20 ∧ (20:ℚ) ≤ 105 :=
  c3_confidence_range.1 emptyTradingConfig seriesFlat 100
    (false, [Monitor.Cond.price_in_entry_zone 100 100], 20, .NONE)
    (by simp [seriesFlat]) eval_flat

/-- The entry step never emits the not-overbought condition. -/
theorem not_overbought_notin_entry (a b p : ℚ) :
    Monitor.Cond.rsi_not_overbought ∉ (Monitor.entry_step a b p).1 := by
  unfold Monitor.entry_step
  split_ifs <;> simp

/-- The pattern step never emits the not-overbought condition. -/
theorem not_overbought_notin_pattern (p : Monitor.CandlePattern) :
    Monitor.Cond.rsi_not_overbought ∉ (Monitor.pattern_step p).1 := by
  unfold Monitor.pattern_step
  split_ifs <;> simp

/-- The SMA step never emits the not-overbought condition. -/
theorem not_overbought_notin_sma (p : ℚ) (s7 s21 s50 : Option ℚ) :
    Monitor.Cond.rsi_not_overbought ∉ (Monitor.sma_step p s7 s21 s50).1 := by
  unfold Monitor.sma_step Monitor.cadd
  split_ifs <;> simp

/-- The RSI-zone step never emits the not-overbought condition. -/
theorem not_overbought_notin_rsi_zone (rv : Option ℚ) :
    Monitor.Cond.rsi_not_overbought ∉ (Monitor.rsi_zone_step rv).1 := by
  unfold Monitor.rsi_zone_step
  split_ifs <;> simp

/-- A successful volume step never emits the not-overbought condition. -/
theorem not_overbought_notin_volume {avg cur : ℚ} {s5 : List Monitor.Cond × ℚ}
    (h : Monitor.volume_step avg cur = .ok s5) :
    Monitor.Cond.rsi_not_overbought ∉ s5.1 := by
  unfold Monitor.volume_step at h
  split_ifs at h <;> rw [Except.ok.injEq] at h <;> rw [← h] <;> simp

/-- The overbought step emits exactly the not-overbought condition, and
only under its truthiness-guarded `rsi < 70` test. -/
theorem not_overbought_mem_iff (rv : Option ℚ) :
    Monitor.Cond.rsi_not_overbought ∈ (Monitor.overbought_step rv).1 ↔
      (∃ v, rv = some v ∧ v ≠ 0 ∧ v < 70) := by
  unfold Monitor.overbought_step
  split_ifs with h
  · rcases rv with _ | v
    · simp [truthyQ] at h
    · simp only [truthyQ, decide_eq_true_eq] at h
      simp only [Option.getD_some] at h
      simp [h.1, h.2]
  · rcases rv with _ | v
    · simp
    · simp only [truthyQ, decide_eq_true_eq, Option.getD_some, not_and] at h
      simp only [List.not_mem_nil, false_iff, not_exists]
      intro w hw
      rcases hw with ⟨hvw, hw0, hwlt⟩
      have hv : v = w := by simpa using hvw
      subst hv
      exact h hw0 hwlt

/-- C8 counterexample: on 50 strictly falling closes the RSI is exactly
0, which is below 70, yet the conditions list of the monitor evaluator
is empty — `if rsi and rsi < 70` skips the "not overbought" condition
when the RSI is exactly 0, so the claimed `rsi < 70` trigger fails. -/
theorem c8_counterexample :
    Monitor.check_long_conditions emptyTradingConfig seriesRsi0 0 = .ok (false, [], 0, .NONE) ∧
    Monitor.rsi (seriesRsi0.map Candle.close) 14 = some 0 ∧
    ((0:ℚ) < 70) ∧
    Monitor.Cond.rsi_not_overbought ∉ ([] : List Monitor.Cond) ∧
    50 ≤ seriesRsi0.length :=
  ⟨evalRsi0, evalRsi0_rsi, by norm_num, by simp, by norm_num [seriesRsi0]⟩

/-- C8 (amended): in a successful monitor evaluation the "not
overbought" condition appears in the conditions list exactly when the
RSI of the closes is available, non-zero and below 70 (Python truthiness
drops the RSI-0 case), and its confidence contribution is 5 exactly when
it appears. -/
theorem c8_not_overbought_trigger :
    ∀ config candles price r, 50 ≤ candles.length →
      Monitor.check_long_conditions config candles price = .ok r →
      ((Monitor.Cond.rsi_not_overbought ∈ r.2.1 ↔
        (∃ v, Monitor.rsi (candles.map Candle.close) 14 = some v ∧ v ≠ 0 ∧ v < 70)) ∧
       (Monitor.overbought_step (Monitor.rsi (candles.map Candle.close) 14)).2 =
         (if Monitor.Cond.rsi_not_overbought ∈ r.2.1 then 5 else 0)) := by
  intro config candles price r _ h
  simp only [Monitor.check_long_conditions] at h
  split at h
  · exact absurd h (by simp)
  · split at h
    · exact absurd h (by simp)
    · rw [Except.ok.injEq] at h
      subst h
      rename_i s5 heq
      have hmem : Monitor.Cond.rsi_not_overbought ∈
          ((Monitor.entry_step
              (config.entry_zone_min.getD
                (Monitor.fibonacci_levels (listMax ((pyTail 50 candles).map Candle.high))
                  (listMin ((pyTail 50 candles).map Candle.low))).r382)
              (config.entry_zone_max.getD
                (Monitor.fibonacci_levels (listMax ((pyTail 50 candles).map Candle.high))
                  (listMin ((pyTail 50 candles).map Candle.low))).r236)
              price).1 ++
            (Monitor.pattern_step (Monitor.detect_pattern candles)).1 ++
            (Monitor.sma_step price (sma (candles.map Candle.close) 7)
              (sma (candles.map Candle.close) 21) (sma (candles.map Candle.close) 50)).1 ++
            (Monitor.rsi_zone_step (Monitor.rsi (candles.map Candle.close) 14)).1 ++
            s5.1 ++
            (Monitor.overbought_step (Monitor.rsi (candles.map Candle.close) 14)).1) ↔
          (∃ v, Monitor.rsi (candles.map Candle.close) 14 = some v ∧ v ≠ 0 ∧ v < 70) := by
        simp only [List.mem_append]
        rw [← not_overbought_mem_iff]
        have h1 := not_overbought_notin_entry
          (config.entry_zone_min.getD
            (Monitor.fibonacci_levels (listMax ((pyTail 50 candles).map Candle.high))
              (listMin ((pyTail 50 candles).map Candle.low))).r382)
          (config.entry_zone_max.getD
            (Monitor.fibonacci_levels (listMax ((pyTail 50 candles).map Candle.high))
              (listMin ((pyTail 50 candles).map Candle.low))).r236)
          price
        have h2 := not_overbought_notin_pattern (Monitor.detect_pattern candles)
        have h3 := not_overbought_notin_sma price (sma (candles.map Candle.close) 7)
          (sma (candles.map Candle.close) 21) (sma (candles.map Candle.close) 50)
        have h4 := not_overbought_notin_rsi_zone (Monitor.rsi (candles.map Candle.close) 14)
        have h5 := not_overbought_notin_volume heq
        simp [h1, h2, h3, h4, h5]
      constructor
      · exact hmem
      · by_cases ht : Monitor.Cond.rsi_not_overbought ∈
            (Monitor.overbought_step (Monitor.rsi (candles.map Candle.close) 14)).1
        · have hr := (not_overbought_mem_iff
            (Monitor.rsi (candles.map Candle.close) 14)).mp ht
          rw [if_pos (hmem.mpr hr)]
          unfold Monitor.overbought_step at ht ⊢
          split_ifs at ht ⊢ <;> simp_all
        · have hr : ¬(∃ v, Monitor.rsi (candles.map Candle.close) 14 = some v ∧
              v ≠ 0 ∧ v < 70) := fun hc =>
            ht ((not_overbought_mem_iff (Monitor.rsi (candles.map Candle.close) 14)).mpr hc)
          rw [if_neg (fun hc => hr (hmem.mp hc))]
          unfold Monitor.overbought_step at ht ⊢
          split_ifs at ht ⊢ <;> simp_all

set_option maxHeartbeats 1000000 in
/-- The RSI of `series105`'s closes is 100/3. -/
theorem eval105_rsi : Monitor.rsi (series105.map Candle.close) 14 = some (100/3) := by
  norm_num [Monitor.rsi, Monitor.rsiGains, Monitor.rsiLosses, Monitor.rsi_avg_loss,
    series105, flatC, pyTail, deltas, List.replicate]

/-- C8 witness: on `series105` the RSI is 100/3 (non-zero, below 70) and
the trigger characterisation puts the condition in the returned list. -/
theorem c8_not_overbought_trigger_witness :
    Monitor.Cond.rsi_not_overbought ∈
      [Monitor.Cond.price_in_entry_zone 0 1000000,
       Monitor.Cond.pattern_reversal Monitor.CandlePattern.BULLISH_ENGULFING,
       Monitor.Cond.price_above_sma21 (4175/21),
       Monitor.Cond.smas_aligned,
       Monitor.Cond.rsi_support (100/3),
       Monitor.Cond.volume_above_avg 2,
       Monitor.Cond.rsi_not_overbought] :=
  ((c8_not_overbought_trigger cfg105 series105 219
      (true,
        [Monitor.Cond.price_in_entry_zone 0 1000000,
         Monitor.Cond.pattern_reversal .BULLISH_ENGULFING,
         Monitor.Cond.price_above_sma21 (4175/21),
         Monitor.Cond.smas_aligned,
         Monitor.Cond.rsi_support (100/3),
         Monitor.Cond.volume_above_avg 2,
         Monitor.Cond.rsi_not_overbought],
        105, .BULLISH_ENGULFING)
      (by norm_num [series105]) eval105).1).mpr
    ⟨100/3, eval105_rsi, by norm_num, by norm_num⟩

/-- C4: on the 50-candle series whose trailing 9 volumes are all zero
while the last bar's volume is positive, the monitor evaluator reaches
the `current_volume/avg_volume` f-string with a zero average volume —
Python raises `ZeroDivisionError` instead of skipping the volume
condition — while src/main.py's evaluator (whose `avg_vol > 0` guard
implements the spec's "skip") evaluates cleanly. -/
theorem c4_zero_volume_divzero :
    Monitor.check_long_conditions emptyTradingConfig seriesZeroVol 100 = .error () ∧
    Main.check_conditions emptyTradingConfig seriesZeroVol 100 = (false, [], 0, .NONE) ∧
    50 ≤ seriesZeroVol.length :=
  ⟨evalZeroVol, evalZeroVolMain, by norm_num [seriesZeroVol]⟩

/-- `roundHalfEven` is the identity on integers. -/
theorem roundHalfEven_intCast (k : ℤ) : roundHalfEven (k : ℚ) = k := by
  unfold roundHalfEven
  rw [Int.floor_intCast]
  norm_num

/-- `round(x, 2)` is the identity on rationals with at most two decimal
places. -/
theorem pyRound2_exact {x : ℚ} {k : ℤ} (hk : 100 * x = k) : pyRound2 x = x := by
  unfold pyRound2
  rw [show x * 100 = (k : ℚ) by linarith, roundHalfEven_intCast]
  rw [← hk]
  ring

/-- Parsing the serialized monitor signal-type string recovers the enum. -/
theorem signal_type_value_parse (t : Monitor.SignalType) :
    Monitor.SignalType.parse t.value = t := by
  cases t <;> rfl

/-- Parsing the serialized monitor pattern string recovers the enum. -/
theorem pattern_value_parse (p : Monitor.CandlePattern) :
    Monitor.CandlePattern.parse p.value = p := by
  cases p <;> rfl

/-- Parsing the serialized src/main.py signal-type string recovers the enum. -/
theorem main_signal_type_value_parse (t : Main.SignalType) :
    Main.SignalType.parse t.value = t := by
  cases t <;> rfl

/-- Parsing the serialized src/main.py pattern string recovers the enum. -/
theorem main_pattern_value_parse (p : Main.MPattern) :
    Main.MPattern.parse p.value = p := by
  cases p <;> rfl

/-- A fully populated monitor signal whose risk-reward ratio `1/3` has
more than two decimal places. -/
def sigThird : Monitor.TradingSignal :=
  { signal_type := .LONG
    symbol := "BTCUSD-PERP"
    entry_zone_min := 94200
    entry_zone_max := 94500
    stop_loss := 93000
    take_profit_1 := 95800
    take_profit_2 := some 97000
    take_profit_3 := some 98500
    pattern_detected := .BULLISH_ENGULFING
    confidence_score := 85
    conditions_met := [Monitor.Cond.smas_aligned]
    timestamp := 1700000000
    timeframe := "1h"
    current_price := 94350
    risk_reward := 1/3
    notes := "Pullback na zona dourada de Fibonacci" }

/-- C9 counterexample: serializing `sigThird` stores
`round(1/3, 2) = 33/100` in the document, so parsing it back does not
restore the original risk-reward ratio and the round-trip is not the
identity on every field. -/
theorem c9_counterexample :
    (Monitor.to_dict sigThird).risk_reward = 33/100 ∧
    sigThird.risk_reward = 1/3 ∧
    Monitor.from_dict (Monitor.to_dict sigThird) ≠ sigThird := by
  have hr : (Monitor.to_dict sigThird).risk_reward = 33/100 := by
    show pyRound2 (1/3) = 33/100
    unfold pyRound2 roundHalfEven
    norm_num
  refine ⟨hr, rfl, fun h => ?_⟩
  have h2 := congrArg Monitor.TradingSignal.risk_reward h
  have h3 : (Monitor.from_dict (Monitor.to_dict sigThird)).risk_reward =
      (Monitor.to_dict sigThird).risk_reward := rfl
  rw [h3, hr] at h2
  norm_num [sigThird] at h2

/-- C9 (amended): the round-trip restores every field except the
risk-reward ratio, which comes back rounded to two decimals; when the
ratio has at most two decimal places the round-trip is the identity.
Holds for both serializer copies. -/
theorem c9_roundtrip :
    (∀ s : Monitor.TradingSignal,
      Monitor.from_dict (Monitor.to_dict s) = { s with risk_reward := pyRound2 s.risk_reward }) ∧
    (∀ s : Monitor.TradingSignal, (∃ k : ℤ, 100 * s.risk_reward = k) →
      Monitor.from_dict (Monitor.to_dict s) = s) ∧
    (∀ s : Main.TradingSignal,
      Main.from_dict (Main.to_dict s) = { s with risk_reward := pyRound2 s.risk_reward }) ∧
    (∀ s : Main.TradingSignal, (∃ k : ℤ, 100 * s.risk_reward = k) →
      Main.from_dict (Main.to_dict s) = s) := by
  have h1 : ∀ s : Monitor.TradingSignal,
      Monitor.from_dict (Monitor.to_dict s) = { s with risk_reward := pyRound2 s.risk_reward } := by
    intro s
    simp [Monitor.from_dict, Monitor.to_dict, signal_type_value_parse, pattern_value_parse]
  have h3 : ∀ s : Main.TradingSignal,
      Main.from_dict (Main.to_dict s) = { s with risk_reward := pyRound2 s.risk_reward } := by
    intro s
    simp [Main.from_dict, Main.to_dict, main_signal_type_value_parse, main_pattern_value_parse]
  refine ⟨h1, fun s hk => ?_, h3, fun s hk => ?_⟩
  · rcases hk with ⟨k, hk⟩
    rw [h1 s, pyRound2_exact hk]
  · rcases hk with ⟨k, hk⟩
    rw [h3 s, pyRound2_exact hk]

/-- A fully populated signal whose risk-reward ratio `207/100` already
has two decimal places. -/
def sigExact : Monitor.TradingSignal :=
  { sigThird with risk_reward := 207/100 }

/-- C9 witness: the exactness clause applied to `sigExact`
(`100 · 207/100 = 207`), giving a perfect round-trip. -/
theorem c9_roundtrip_witness : Monitor.from_dict (Monitor.to_dict sigExact) = sigExact :=
  c9_roundtrip.2.1 sigExact ⟨207, by norm_num [sigExact, sigThird]⟩
